import Mathlib

/-!
Shallow embedding of `src/framebuffer.c` (drm-framebuffer).

The kernel mode-setting interface is modelled as an environment of pure
oracles (`Env`): each DRM call the program issues is recorded as an `Event`
in a trace, and the value the kernel returns for it is read off the
environment.  The program's own control flow, field assignments and guards
are translated statement by statement from the C source.
-/

namespace DrmFramebuffer

/-! ### DRM constants (from the libdrm headers used by the source) -/

def DRM_MODE_CONNECTOR_Unknown : Nat := 0
def DRM_MODE_CONNECTOR_VGA : Nat := 1
def DRM_MODE_CONNECTOR_DVII : Nat := 2
def DRM_MODE_CONNECTOR_DVID : Nat := 3
def DRM_MODE_CONNECTOR_DVIA : Nat := 4
def DRM_MODE_CONNECTOR_Composite : Nat := 5
def DRM_MODE_CONNECTOR_SVIDEO : Nat := 6
def DRM_MODE_CONNECTOR_LVDS : Nat := 7
def DRM_MODE_CONNECTOR_Component : Nat := 8
def DRM_MODE_CONNECTOR_NinePinDIN : Nat := 9
def DRM_MODE_CONNECTOR_DisplayPort : Nat := 10
def DRM_MODE_CONNECTOR_HDMIA : Nat := 11
def DRM_MODE_CONNECTOR_HDMIB : Nat := 12
def DRM_MODE_CONNECTOR_TV : Nat := 13
def DRM_MODE_CONNECTOR_eDP : Nat := 14
def DRM_MODE_CONNECTOR_VIRTUAL : Nat := 15
def DRM_MODE_CONNECTOR_DSI : Nat := 16
def DRM_MODE_CONNECTOR_DPI : Nat := 17

/-- Constant `DRM_MODE_TYPE_PREFERRED` is bit 3 (`1 << 3`). -/
def DRM_MODE_TYPE_PREFERRED : Nat := 8

/-- Constant `DRM_FORMAT_ABGR8888 = fourcc_code('A','B','2','4')`: 32-bit, one byte
per channel, alpha-blue-green-red byte ordering. -/
def DRM_FORMAT_ABGR8888 : Nat := 0x34324241

/-- Constant `EINVAL` from `errno.h`. -/
def EINVAL : Int := 22

/-! ### Data model (structs the source reads and writes) -/

/-- The fields of `drmModeModeInfo` the source uses: `hdisplay`, `vdisplay`
and the `type` flag word tested against `DRM_MODE_TYPE_PREFERRED`. -/
structure Mode where
  hdisplay : Nat
  vdisplay : Nat
  type : Nat
deriving DecidableEq, Repr

/-- The fields of `drmModeConnector` the source uses. -/
structure Connector where
  connector_id : Nat
  connector_type : Nat
  connector_type_id : Nat
  encoder_id : Nat
  encoders : List Nat
  modes : List Mode
deriving DecidableEq, Repr

/-- The field of `drmModeEncoder` the source uses. -/
structure Encoder where
  crtc_id : Nat
deriving DecidableEq, Repr

/-- The fields of `drmModeCrtc` that the source captures at acquisition and
reads back at release: the controller id, the previously bound buffer id and
the previously programmed mode. -/
structure CrtcState where
  crtc_id : Nat
  buffer_id : Nat
  mode : Mode
deriving DecidableEq, Repr

/-- Struct `drm_mode_create_dumb`: the request fields the program fills
(`height`, `width`, `bpp`) and the reply fields the kernel fills
(`handle`, `pitch`, `size`). -/
structure DumbFB where
  height : Nat
  width : Nat
  bpp : Nat
  handle : Nat
  pitch : Nat
  size : Nat
deriving DecidableEq, Repr

/-- The reply part of a successful `DRM_IOCTL_MODE_CREATE_DUMB`. -/
structure DumbFill where
  handle : Nat
  pitch : Nat
  size : Nat
deriving DecidableEq, Repr

/-- Struct `framebuffer` from the repository header, as the `.c` file uses
it.  Pointer fields are `Option`; a null pointer is `none`.  `fd` is a C
`int`; the release guard `if (fb->fd)` is truthiness, i.e. `fd ≠ 0`. -/
structure Framebuffer where
  fd : Int := 0
  buffer_id : Nat := 0
  dumb_framebuffer : DumbFB := ⟨0, 0, 0, 0, 0, 0⟩
  crtc : Option CrtcState := none
  connector : Option Connector := none
  resolution : Option Mode := none
  data : Option Nat := none
deriving DecidableEq, Repr

/-! ### Kernel-call trace -/

/-- One kernel/libdrm call of the mode-setting API surface, with the
arguments the source passes.  `setCrtc` records the controller id, the
buffer id, the connector id pointer and the mode pointer passed to
`drmModeSetCrtc`.  `getFB`/`freeFB` are `drmModeGetFB` (fetch the
client-side framebuffer object) and `drmModeFreeFB` (free that client-side
object); `rmFB` is the display-subsystem unregistration primitive
`drmModeRmFB`, a distinct call of the same API, which no statement of the
source ever issues. -/
inductive Event where
  | openDev (path : String) (fd : Int)
  | getResources (ok : Bool)
  | getConnectorCurrent (id : Nat)
  | freeConnector (id : Nat)
  | createDumb (width height bpp : Nat)
  | addFB2 (width height fmt : Nat) (handles pitches offsets : List Nat)
  | getEncoder (id : Nat)
  | freeEncoder
  | getCrtc (id : Nat)
  | mapDumb (handle : Nat)
  | mmapCall (len offset : Nat)
  | dropMaster
  | setMaster (fd : Int)
  | setCrtc (crtc_id buffer_id : Nat) (conn : Option Nat) (mode : Option Mode)
  | freeCrtc
  | getFB (buffer_id : Nat)
  | freeFB
  | rmFB (buffer_id : Nat)
  | destroyDumb (handle : Nat)
  | closeFd (fd : Int)
deriving DecidableEq, Repr

def Event.isSetCrtc : Event → Bool
  | .setCrtc _ _ _ _ => true
  | _ => false

def Event.isCreateDumb : Event → Bool
  | .createDumb _ _ _ => true
  | _ => false

def Event.isAddFB2 : Event → Bool
  | .addFB2 _ _ _ _ _ _ => true
  | _ => false

def Event.isCloseFd : Event → Bool
  | .closeFd _ => true
  | _ => false

def Event.isFreeConnector : Event → Bool
  | .freeConnector _ => true
  | _ => false

def Event.isRmFB : Event → Bool
  | .rmFB _ => true
  | _ => false

/-! ### Static connector-type name table -/

structure TypeName where
  type : Nat
  name : String
deriving DecidableEq, Repr

/-- Table `connector_type_names` from the source, in source order. -/
def connector_type_names : List TypeName :=
  [ ⟨DRM_MODE_CONNECTOR_Unknown, "unknown"⟩,
    ⟨DRM_MODE_CONNECTOR_VGA, "VGA"⟩,
    ⟨DRM_MODE_CONNECTOR_DVII, "DVI-I"⟩,
    ⟨DRM_MODE_CONNECTOR_DVID, "DVI-D"⟩,
    ⟨DRM_MODE_CONNECTOR_DVIA, "DVI-A"⟩,
    ⟨DRM_MODE_CONNECTOR_Composite, "composite"⟩,
    ⟨DRM_MODE_CONNECTOR_SVIDEO, "s-video"⟩,
    ⟨DRM_MODE_CONNECTOR_LVDS, "LVDS"⟩,
    ⟨DRM_MODE_CONNECTOR_Component, "component"⟩,
    ⟨DRM_MODE_CONNECTOR_NinePinDIN, "9-pin DIN"⟩,
    ⟨DRM_MODE_CONNECTOR_DisplayPort, "DP"⟩,
    ⟨DRM_MODE_CONNECTOR_HDMIA, "HDMI-A"⟩,
    ⟨DRM_MODE_CONNECTOR_HDMIB, "HDMI-B"⟩,
    ⟨DRM_MODE_CONNECTOR_TV, "TV"⟩,
    ⟨DRM_MODE_CONNECTOR_eDP, "eDP"⟩,
    ⟨DRM_MODE_CONNECTOR_VIRTUAL, "Virtual"⟩,
    ⟨DRM_MODE_CONNECTOR_DSI, "DSI"⟩,
    ⟨DRM_MODE_CONNECTOR_DPI, "DPI"⟩ ]

/-- Function `connector_type_name`: index the table by the type identifier when it is
in range (the C `type >= 0` conjunct is vacuous for an unsigned argument),
otherwise return the sentinel. -/
def connector_type_name (type : Nat) : String :=
  if h : type < connector_type_names.length then
    (connector_type_names.get ⟨type, h⟩).name
  else
    "INVALID"

/-! ### Mode selection (lines 124-140 of the source) -/

/-- The Boolean test `res->type & DRM_MODE_TYPE_PREFERRED` from the scan. -/
def mode_is_preferred (m : Mode) : Bool :=
  (m.type &&& DRM_MODE_TYPE_PREFERRED) != 0

/-- The preferred-mode scan: walk the whole mode array, remembering the most
recent mode whose `type` has the preferred bit; no early exit. -/
def scan_preferred (modes : List Mode) : Option Mode :=
  modes.foldl (fun acc m => if mode_is_preferred m then some m else acc) none

/-- Resolution selection: an in-range `selected_resolution` indexes the mode
array directly; otherwise the preferred-mode scan runs, and if it found
nothing the first mode is used (`resolution = &connector->modes[0]`). -/
def select_resolution (modes : List Mode) (selected_resolution : Int) : Option Mode :=
  let r :=
    if 0 ≤ selected_resolution ∧ selected_resolution < (modes.length : Int) then
      modes.get? selected_resolution.toNat
    else
      scan_preferred modes
  match r with
  | some m => some m
  | none => modes.get? 0

/-! ### release_framebuffer (lines 48-70 of the source) -/

/-- Function `release_framebuffer`, translated statement by statement.  Everything is
inside `if (fb->fd)`.  The only field the function writes back is
`fb->resolution = 0`, done when a connector is present; every other field
keeps its (now dangling) value.  The returned trace lists the kernel calls
in program order. -/
def release_framebuffer (fb : Framebuffer) : Framebuffer × List Event :=
  if fb.fd ≠ 0 then
    let tr : List Event := [.setMaster fb.fd]
    let tr :=
      match fb.crtc with
      | some crtc =>
          tr ++ [.setCrtc crtc.crtc_id crtc.buffer_id
                   (fb.connector.map Connector.connector_id) fb.resolution,
                 .freeCrtc]
      | none => tr
    let tr := if fb.buffer_id ≠ 0 then tr ++ [.getFB fb.buffer_id, .freeFB] else tr
    let st :=
      match fb.connector with
      | some c =>
          (({ fb with resolution := none } : Framebuffer),
           tr ++ [Event.freeConnector c.connector_id])
      | none => (fb, tr)
    let fb := st.fst
    let tr := st.snd
    let tr :=
      if fb.dumb_framebuffer.handle ≠ 0 then
        tr ++ [.destroyDumb fb.dumb_framebuffer.handle]
      else tr
    (fb, tr ++ [.closeFd fb.fd])
  else
    (fb, [])

/-! ### Kernel environment -/

/-- Struct `drmModeRes`: the two arrays the source reads. -/
structure Resources where
  connectors : List Nat
  crtcs : List Nat

/-- Three words of uninitialized stack memory: the contents of slots 1..3 of
one of the local `uint32_t [4]` arrays, which the source never writes. -/
structure StackWords where
  w1 : Nat
  w2 : Nat
  w3 : Nat

/-- The kernel/libdrm oracle: for each call the source issues, the value the
kernel would return.  A negative `openAt` is a failed `open`; `none` from a
`drmModeGet*` call is a null pointer; a nonzero first component of
`createDumb`/`addFB2`/`mapDumb` is the error status; `mmapPtr` returning
`none` is `MAP_FAILED`, with `errno` then reading `mmapErrno`. -/
structure Env where
  openAt : String → Int
  resources : Option Resources
  connectorAt : Nat → Option Connector
  createDumb : Nat → Nat → Nat → Int × DumbFill
  addFB2 : Nat → Nat → Nat → List Nat → List Nat → List Nat → Int × Nat
  encoderAt : Nat → Option Encoder
  crtcAt : Nat → Option CrtcState
  mapDumb : Nat → Int × Nat
  mmapPtr : Nat → Nat → Option Nat
  mmapErrno : Int
  handlesInit : StackWords
  pitchesInit : StackWords
  offsetsInit : StackWords

/-! ### Connector search (lines 95-112 of the source) -/

/-- The candidate name `snprintf(name, 32, "%s-%u", ...)` builds: the
type-table name, a dash, and the decimal type-instance index, truncated to
31 bytes by the buffer bound. -/
def build_name (c : Connector) : String :=
  String.mk ((connector_type_name c.connector_type ++ "-"
              ++ toString c.connector_type_id).toList.take 31)

/-- The search loop: fetch each connector id in turn; a null connector is
skipped; a name match (the length-bounded `strncmp` against the 31-byte
truncated candidate) breaks out keeping the connector; a mismatch frees the
connector and continues.  Returns the held connector (if any) and the trace
of calls the loop made. -/
def find_connector (env : Env) (ids : List Nat) (connector_name : String) :
    Option Connector × List Event :=
  match ids with
  | [] => (none, [])
  | id :: rest =>
    match env.connectorAt id with
    | none =>
        let r := find_connector env rest connector_name
        (r.fst, Event.getConnectorCurrent id :: r.snd)
    | some c =>
        if build_name c == connector_name then
          (some c, [Event.getConnectorCurrent id])
        else
          let r := find_connector env rest connector_name
          (r.fst, Event.getConnectorCurrent id :: Event.freeConnector c.connector_id :: r.snd)

/-! ### get_framebuffer (lines 72-211 of the source) -/

/-- Result of a `get_framebuffer` run: the returned status, the caller's
`struct framebuffer` after the call, the trace of kernel calls made by the
acquisition code itself (including the `cleanup` label's encoder free), and
separately the trace made by the internal `release_framebuffer(fb)` call
(empty when that call was not reached or did nothing). -/
structure GFBResult where
  err : Int
  fb : Framebuffer
  acqTrace : List Event
  relTrace : List Event
deriving Repr

/-- The encoder id the source queries: the connector's current encoder if
associated, else the connector's first listed encoder
(`connector->encoder_id ? connector->encoder_id : connector->encoders[0]`). -/
def pick_encoder_id (c : Connector) : Nat :=
  if c.encoder_id ≠ 0 then c.encoder_id else c.encoders.headD 0

/-- The controller id the source queries: the encoder's current controller
if associated, else the device's first listed controller
(`encoder->crtc_id ? encoder->crtc_id : res->crtcs[0]`). -/
def pick_crtc_id (encoder : Encoder) (res : Resources) : Nat :=
  if encoder.crtc_id ≠ 0 then encoder.crtc_id else res.crtcs.headD 0

/-- Function `get_framebuffer`, translated statement by statement.  Early failures
(`open`, `drmModeGetResources`, no matching connector, zero modes) return
`-EINVAL` directly without reaching the `cleanup` label.  Later failures
jump to `cleanup`, which frees the encoder when one was obtained and calls
`release_framebuffer(fb)` when `err` is nonzero.  Field assignments to the
caller's struct happen exactly where the C assigns them: the dumb-buffer
request fields before `DRM_IOCTL_MODE_CREATE_DUMB`, its reply fields after,
`buffer_id` by `drmModeAddFB2`, `crtc` by `drmModeGetCrtc`, `data` by
`mmap`, and `fd`/`connector`/`resolution` only on the full-success path
after `drmDropMaster`. -/
def get_framebuffer (env : Env) (dri_device : String) (connector_name : String)
    (fb : Framebuffer) (selected_resolution : Int) : GFBResult :=
  let fd := env.openAt dri_device
  let t0 : List Event := [Event.openDev dri_device fd]
  if fd < 0 then
    ⟨-EINVAL, fb, t0, []⟩
  else
    match env.resources with
    | none => ⟨-EINVAL, fb, t0 ++ [Event.getResources false], []⟩
    | some res =>
      let t1 := t0 ++ [Event.getResources true]
      let fc := find_connector env res.connectors connector_name
      let t2 := t1 ++ fc.snd
      match fc.fst with
      | none => ⟨-EINVAL, fb, t2, []⟩
      | some connector =>
        if connector.modes.length = 0 then
          ⟨-EINVAL, fb, t2, []⟩
        else
          let resolution := (select_resolution connector.modes selected_resolution).getD ⟨0, 0, 0⟩
          let fb1 := { fb with dumb_framebuffer :=
            { fb.dumb_framebuffer with
                height := resolution.vdisplay
                width := resolution.hdisplay
                bpp := 32 } }
          let cd := env.createDumb resolution.hdisplay resolution.vdisplay 32
          let t3 := t2 ++ [Event.createDumb resolution.hdisplay resolution.vdisplay 32]
          if cd.fst ≠ 0 then
            let rel := release_framebuffer fb1
            ⟨cd.fst, rel.fst, t3, rel.snd⟩
          else
            let fill := cd.snd
            let fb2 := { fb1 with dumb_framebuffer :=
              { fb1.dumb_framebuffer with
                  handle := fill.handle
                  pitch := fill.pitch
                  size := fill.size } }
            let handles := [fill.handle, env.handlesInit.w1, env.handlesInit.w2, env.handlesInit.w3]
            let pitches := [fill.pitch, env.pitchesInit.w1, env.pitchesInit.w2, env.pitchesInit.w3]
            let offsets := [0, env.offsetsInit.w1, env.offsetsInit.w2, env.offsetsInit.w3]
            let af := env.addFB2 resolution.hdisplay resolution.vdisplay DRM_FORMAT_ABGR8888
                        handles pitches offsets
            let t4 := t3 ++ [Event.addFB2 resolution.hdisplay resolution.vdisplay
                               DRM_FORMAT_ABGR8888 handles pitches offsets]
            if af.fst ≠ 0 then
              let rel := release_framebuffer fb2
              ⟨af.fst, rel.fst, t4, rel.snd⟩
            else
              let fb3 := { fb2 with buffer_id := af.snd }
              let encId := pick_encoder_id connector
              let t5 := t4 ++ [Event.getEncoder encId]
              match env.encoderAt encId with
              | none =>
                  let rel := release_framebuffer fb3
                  ⟨-EINVAL, rel.fst, t5, rel.snd⟩
              | some encoder =>
                  let crtcId := pick_crtc_id encoder res
                  let crtcOpt := env.crtcAt crtcId
                  let fb4 := { fb3 with crtc := crtcOpt }
                  let t6 := t5 ++ [Event.getCrtc crtcId]
                  match crtcOpt with
                  | none =>
                      let rel := release_framebuffer fb4
                      ⟨-EINVAL, rel.fst, t6 ++ [Event.freeEncoder], rel.snd⟩
                  | some _ =>
                      let md := env.mapDumb fb4.dumb_framebuffer.handle
                      let t7 := t6 ++ [Event.mapDumb fb4.dumb_framebuffer.handle]
                      if md.fst ≠ 0 then
                        let rel := release_framebuffer fb4
                        ⟨md.fst, rel.fst, t7 ++ [Event.freeEncoder], rel.snd⟩
                      else
                        let dataR := env.mmapPtr fb4.dumb_framebuffer.size md.snd
                        let fb5 := { fb4 with data := dataR }
                        let t8 := t7 ++ [Event.mmapCall fb4.dumb_framebuffer.size md.snd]
                        match dataR with
                        | none =>
                            if env.mmapErrno ≠ 0 then
                              let rel := release_framebuffer fb5
                              ⟨env.mmapErrno, rel.fst, t8 ++ [Event.freeEncoder], rel.snd⟩
                            else
                              ⟨0, fb5, t8 ++ [Event.freeEncoder], []⟩
                        | some _ =>
                            let fb6 := { fb5 with
                              fd := fd
                              connector := some connector
                              resolution := some resolution }
                            ⟨0, fb6, t8 ++ [Event.dropMaster, Event.freeEncoder], []⟩

/-! ### Helper lemmas -/

/-- The preferred-mode fold, generalized over its accumulator: it yields the
last preferred mode of the list, or the accumulator if none is preferred. -/
lemma foldl_scan_eq (l : List Mode) (acc : Option Mode) :
    l.foldl (fun a m => if mode_is_preferred m then some m else a) acc
      = match (l.filter mode_is_preferred).getLast? with
        | some m => some m
        | none => acc := by
  induction l generalizing acc with
  | nil => simp
  | cons x xs ih =>
    rw [List.foldl_cons]
    by_cases hx : mode_is_preferred x
    · rw [if_pos hx, ih, List.filter_cons_of_pos hx]
      cases hfl : xs.filter mode_is_preferred with
      | nil => simp [hfl]
      | cons y ys =>
        rw [List.getLast?_cons_cons]
        cases hg : (y :: ys).getLast? with
        | some m => rfl
        | none => exact absurd (List.getLast?_eq_none_iff.mp hg) (by simp)
    · rw [if_neg hx, ih, List.filter_cons_of_neg hx]

/-- The scan over the whole mode list returns the last preferred mode. -/
lemma scan_preferred_getLast (modes : List Mode) :
    scan_preferred modes = (modes.filter mode_is_preferred).getLast? := by
  rw [scan_preferred, foldl_scan_eq]
  cases (modes.filter mode_is_preferred).getLast? <;> rfl

/-- Every event the connector-search loop emits satisfies any predicate that
holds of `getConnectorCurrent` and `freeConnector` events. -/
lemma find_connector_all (p : Event → Bool)
    (h1 : ∀ i, p (Event.getConnectorCurrent i) = true)
    (h2 : ∀ i, p (Event.freeConnector i) = true)
    (env : Env) (ids : List Nat) (connector_name : String) :
    ((find_connector env ids connector_name).snd).all p = true := by
  induction ids with
  | nil => rfl
  | cons id rest ih =>
    unfold find_connector
    cases env.connectorAt id with
    | none => simpa [List.all_cons, h1] using ih
    | some c =>
      by_cases hb : (build_name c == connector_name) = true
      · simp [hb, List.all_cons, h1]
      · simpa [hb, List.all_cons, h1, h2] using ih

/-- Function `release_framebuffer` never assigns the `fd` or `connector` fields, and
either leaves `resolution` alone or nulls it. -/
lemma release_framebuffer_fields (fb : Framebuffer) :
    (release_framebuffer fb).fst.fd = fb.fd
    ∧ (release_framebuffer fb).fst.connector = fb.connector
    ∧ ((release_framebuffer fb).fst.resolution = fb.resolution
       ∨ (release_framebuffer fb).fst.resolution = none) := by
  unfold release_framebuffer
  by_cases hfd : fb.fd ≠ 0
  · rw [if_pos hfd]
    cases hc : fb.connector <;> simp [hc]
  · rw [if_neg hfd]
    simp

/-- Function `release_framebuffer` never assigns `fd`. -/
lemma release_framebuffer_fd (fb : Framebuffer) :
    (release_framebuffer fb).fst.fd = fb.fd :=
  (release_framebuffer_fields fb).1

/-- Function `release_framebuffer` never assigns `connector`. -/
lemma release_framebuffer_connector (fb : Framebuffer) :
    (release_framebuffer fb).fst.connector = fb.connector :=
  (release_framebuffer_fields fb).2.1

/-- Function `release_framebuffer` nulls `resolution` exactly when it runs (nonzero
`fd`) and a connector is held; otherwise it leaves it alone. -/
lemma release_framebuffer_resolution (fb : Framebuffer) :
    (release_framebuffer fb).fst.resolution
      = if fb.fd ≠ 0 ∧ fb.connector.isSome then none else fb.resolution := by
  unfold release_framebuffer
  by_cases hfd : fb.fd ≠ 0
  · rw [if_pos hfd]
    cases hc : fb.connector <;> simp [hc, hfd]
  · rw [if_neg hfd]
    simp [hfd]

/-- After a release, the `resolution` field is either untouched or null. -/
lemma release_framebuffer_resolution_or (fb : Framebuffer) :
    (release_framebuffer fb).fst.resolution = fb.resolution
    ∨ (release_framebuffer fb).fst.resolution = none := by
  rw [release_framebuffer_resolution]
  split <;> simp

/-! ### Concrete fixtures for witnesses and counterexamples -/

/-- A connector whose constructed name is "HDMI-A-1", with one mode. -/
def connHDMI : Connector :=
  { connector_id := 7, connector_type := 11, connector_type_id := 1,
    encoder_id := 33, encoders := [33], modes := [⟨1920, 1080, 8⟩] }

/-- An environment in which every kernel call succeeds. -/
def envAcqOk : Env :=
  { openAt := fun _ => 3,
    resources := some ⟨[7], [44]⟩,
    connectorAt := fun i => if i = 7 then some connHDMI else none,
    createDumb := fun _ _ _ => (0, ⟨5, 7680, 8294400⟩),
    addFB2 := fun _ _ _ _ _ _ => (0, 99),
    encoderAt := fun i => if i = 33 then some ⟨21⟩ else none,
    crtcAt := fun i => if i = 21 then some ⟨21, 88, ⟨640, 480, 0⟩⟩ else none,
    mapDumb := fun _ => (0, 4096),
    mmapPtr := fun _ _ => some 1000,
    mmapErrno := 1,
    handlesInit := ⟨9, 9, 9⟩, pitchesInit := ⟨9, 9, 9⟩, offsetsInit := ⟨9, 9, 9⟩ }

/-- Same environment, but `DRM_IOCTL_MODE_CREATE_DUMB` fails with -12. -/
def envCreateDumbFail : Env :=
  { envAcqOk with createDumb := fun _ _ _ => (-12, ⟨0, 0, 0⟩) }

/-- Same environment, but the matched connector reports zero modes. -/
def envZeroModes : Env :=
  { envAcqOk with
    connectorAt := fun i => if i = 7 then some { connHDMI with modes := [] } else none }

/-- The handle state a fully successful acquisition run leaves behind. -/
def fbAcquired : Framebuffer :=
  { fd := 3, buffer_id := 4, dumb_framebuffer := ⟨1080, 1920, 32, 5, 7680, 8294400⟩,
    crtc := some ⟨21, 88, ⟨640, 480, 0⟩⟩, connector := some connHDMI,
    resolution := some ⟨1920, 1080, 8⟩, data := some 1000 }

/-- A caller-provided handle with nonzero descriptor, connector and
resolution fields. -/
def fbPre : Framebuffer :=
  { fd := 9, connector := some connHDMI, resolution := some ⟨640, 480, 0⟩ }

/-! ### Claim theorems -/

/-- Claim C1 (code evaluated at the failing input): with a zeroed handle,
the device opens (fd 3), the connector is matched, and dumb-buffer creation
fails with -12; `get_framebuffer` then returns the error after an internal
`release_framebuffer` call that does nothing (the handle's `fd` field is
only assigned on success, so it is still 0): the trace closes no descriptor
and frees no connector — both leak, contradicting the claimed guarantee. -/
theorem get_framebuffer_leak_at_failing_input :
    (get_framebuffer envCreateDumbFail "/dev/dri/card0" "HDMI-A-1" {} (-1)).err = -12
    ∧ (get_framebuffer envCreateDumbFail "/dev/dri/card0" "HDMI-A-1" {} (-1)).acqTrace.head?
        = some (Event.openDev "/dev/dri/card0" 3)
    ∧ (get_framebuffer envCreateDumbFail "/dev/dri/card0" "HDMI-A-1" {} (-1)).relTrace = []
    ∧ (((get_framebuffer envCreateDumbFail "/dev/dri/card0" "HDMI-A-1" {} (-1)).acqTrace
        ++ (get_framebuffer envCreateDumbFail "/dev/dri/card0" "HDMI-A-1" {} (-1)).relTrace).all
          (fun e => !e.isCloseFd && !e.isFreeConnector)) = true := by
  decide

/-- Claim C2 counterexample: after one release of a fully acquired handle,
a second release is not a no-op beyond the master-reacquire: it repeats the
controller restore/free, the registered-buffer free, the connector free,
the dumb-buffer destroy and the descriptor close, because the first release
cleared only the `resolution` field. -/
theorem release_framebuffer_second_call_cex :
    Event.freeCrtc ∈ (release_framebuffer (release_framebuffer fbAcquired).fst).snd
    ∧ Event.freeConnector 7 ∈ (release_framebuffer (release_framebuffer fbAcquired).fst).snd
    ∧ Event.destroyDumb 5 ∈ (release_framebuffer (release_framebuffer fbAcquired).fst).snd
    ∧ Event.closeFd 3 ∈ (release_framebuffer (release_framebuffer fbAcquired).fst).snd := by
  decide

/-- The final `close(fb->fd)` always appears in the trace of a release of a
handle with nonzero descriptor. -/
lemma release_closeFd_mem (fb : Framebuffer) (h : fb.fd ≠ 0) :
    Event.closeFd fb.fd ∈ (release_framebuffer fb).snd := by
  unfold release_framebuffer
  rw [if_pos h]
  cases hc : fb.connector <;> simp [hc]

/-- Claim C2 as amended: release of a zeroed handle is a no-op (no kernel
call at all), but release is not idempotent: it never clears the `fd`
field, so a second release of a handle with nonzero descriptor closes the
descriptor again (and re-frees every still-set resource). -/
theorem release_framebuffer_amended (fb : Framebuffer) :
    (fb.fd = 0 → release_framebuffer fb = (fb, []))
    ∧ (fb.fd ≠ 0 →
        (release_framebuffer fb).fst.fd = fb.fd
        ∧ Event.closeFd fb.fd ∈ (release_framebuffer (release_framebuffer fb).fst).snd) := by
  constructor
  · intro h
    unfold release_framebuffer
    rw [if_neg (by simp [h])]
  · intro h
    have h1 : (release_framebuffer fb).fst.fd = fb.fd := (release_framebuffer_fields fb).1
    refine ⟨h1, ?_⟩
    have := release_closeFd_mem (release_framebuffer fb).fst (by rw [h1]; exact h)
    rwa [h1] at this

/-- Witness for the amended C2: the zeroed handle and the acquired handle. -/
theorem release_framebuffer_amended_witness :
    release_framebuffer {} = ({}, [])
    ∧ ((release_framebuffer fbAcquired).fst.fd = fbAcquired.fd
       ∧ Event.closeFd fbAcquired.fd
           ∈ (release_framebuffer (release_framebuffer fbAcquired).fst).snd) :=
  ⟨(release_framebuffer_amended {}).1 rfl,
   (release_framebuffer_amended fbAcquired).2 (by decide)⟩

/-- Claim C3 counterexample, refuting two of its steps on a handle with a
registered buffer id (4) whose captured controller state records a prior
mode of 640x480 while the selected resolution is 1920x1080.  Step (b): the
restore call passes the *selected* resolution as the mode argument, never
the captured prior mode — the controller is not restored to its prior mode
binding.  Step (c): the release fetches and frees the client-side
framebuffer object (`drmModeGetFB`/`drmModeFreeFB`) but issues no
`drmModeRmFB` at all — the registered buffer is never unregistered from
the display subsystem. -/
theorem release_restore_mode_cex :
    fbAcquired.crtc = some ⟨21, 88, ⟨640, 480, 0⟩⟩
    ∧ Event.setCrtc 21 88 (some 7) (some ⟨1920, 1080, 8⟩) ∈ (release_framebuffer fbAcquired).snd
    ∧ ((release_framebuffer fbAcquired).snd.all
        (fun e => match e with
          | Event.setCrtc _ _ _ m => m == some (⟨1920, 1080, 8⟩ : Mode)
          | _ => true)) = true
    ∧ fbAcquired.buffer_id = 4
    ∧ Event.getFB 4 ∈ (release_framebuffer fbAcquired).snd
    ∧ Event.freeFB ∈ (release_framebuffer fbAcquired).snd
    ∧ ((release_framebuffer fbAcquired).snd.all (fun e => !e.isRmFB)) = true := by
  decide

/-- Claim C3 as amended: on a handle with nonzero descriptor, release's
trace is exactly, in order: (a) the unconditional master reacquire; (b) if
controller state was captured, one `setCrtc` rebinding the controller to
its prior buffer — with the handle's `resolution` field, not the captured
prior mode, as the mode argument — followed by freeing the captured state;
(c) if a registered buffer id is set, fetching and freeing the client-side
framebuffer object, with no display-subsystem unregistration call (the
trace equality leaves no room for a `rmFB`); (d) if a connector is held,
freeing it; (e) if a dumb-buffer handle exists, destroying it; (f) closing
the descriptor. -/
theorem release_framebuffer_order (fb : Framebuffer) (h : fb.fd ≠ 0) :
    (release_framebuffer fb).snd
      = [Event.setMaster fb.fd]
        ++ (match fb.crtc with
            | some c => [Event.setCrtc c.crtc_id c.buffer_id
                           (fb.connector.map Connector.connector_id) fb.resolution,
                         Event.freeCrtc]
            | none => [])
        ++ (if fb.buffer_id ≠ 0 then [Event.getFB fb.buffer_id, Event.freeFB] else [])
        ++ (match fb.connector with
            | some c => [Event.freeConnector c.connector_id]
            | none => [])
        ++ (if fb.dumb_framebuffer.handle ≠ 0 then [Event.destroyDumb fb.dumb_framebuffer.handle]
            else [])
        ++ [Event.closeFd fb.fd] := by
  unfold release_framebuffer
  rw [if_pos h]
  cases hc : fb.connector <;> cases hcr : fb.crtc <;>
    by_cases hb : fb.buffer_id ≠ 0 <;>
    by_cases hd : fb.dumb_framebuffer.handle ≠ 0 <;>
    simp [hc, hcr, hb, hd]

/-- Witness for the amended C3 on the fully acquired handle. -/
theorem release_framebuffer_order_witness :
    (release_framebuffer fbAcquired).snd
      = [Event.setMaster 3,
         Event.setCrtc 21 88 (some 7) (some ⟨1920, 1080, 8⟩), Event.freeCrtc,
         Event.getFB 4, Event.freeFB,
         Event.freeConnector 7,
         Event.destroyDumb 5,
         Event.closeFd 3] := by
  rw [release_framebuffer_order fbAcquired (by decide)]
  decide

/-- Claim C6: for every connector-type identifier strictly below the table's
size, `connector_type_name` returns that identifier's documented name (the
table entry at that identifier, whose stored type equals the identifier);
for every identifier at or beyond the table's upper bound it returns the
sentinel "INVALID". -/
theorem connector_type_name_table (t : Nat) :
    (∀ h : t < connector_type_names.length,
        (connector_type_names.get ⟨t, h⟩).type = t
        ∧ connector_type_name t = (connector_type_names.get ⟨t, h⟩).name)
    ∧ (connector_type_names.length ≤ t → connector_type_name t = "INVALID") := by
  constructor
  · intro h
    have h18 : t < 18 := by simpa [connector_type_names] using h
    interval_cases t <;> exact ⟨rfl, rfl⟩
  · intro h
    unfold connector_type_name
    rw [dif_neg (Nat.not_lt.mpr h)]

/-- Claim C4: with an in-range requested index, selection returns exactly
that mode with no preference check; with an out-of-range index it returns
the last mode of the sequence carrying the preferred marker (the scan does
not short-circuit), and when no mode is marked preferred it returns the
first mode. -/
theorem select_resolution_policy (modes : List Mode) (sel : Int) :
    (0 ≤ sel → sel < (modes.length : Int) →
        select_resolution modes sel = modes.get? sel.toNat)
    ∧ (¬(0 ≤ sel ∧ sel < (modes.length : Int)) →
        modes.filter mode_is_preferred ≠ [] →
          select_resolution modes sel = (modes.filter mode_is_preferred).getLast?)
    ∧ (¬(0 ≤ sel ∧ sel < (modes.length : Int)) →
        modes.filter mode_is_preferred = [] →
          select_resolution modes sel = modes.get? 0) := by
  refine ⟨fun h1 h2 => ?_, fun hnr hne => ?_, fun hnr hfl => ?_⟩
  · unfold select_resolution
    rw [if_pos ⟨h1, h2⟩]
    cases hg : modes.get? sel.toNat with
    | some m => simp [hg]
    | none =>
      exfalso
      have hle := List.get?_eq_none.mp hg
      omega
  · unfold select_resolution
    rw [if_neg hnr, scan_preferred_getLast]
    cases hg : (modes.filter mode_is_preferred).getLast? with
    | some m => simp [hg]
    | none => exact absurd (List.getLast?_eq_none_iff.mp hg) hne
  · unfold select_resolution
    rw [if_neg hnr, scan_preferred_getLast, hfl]
    rfl

/-- Witness for C4 on the spec's own example: five modes with indices 1 and
3 preferred and automatic selection (-1); the last preferred mode (index 3)
wins. -/
theorem select_resolution_policy_witness :
    select_resolution
        [⟨640, 480, 0⟩, ⟨800, 600, 8⟩, ⟨1024, 768, 0⟩, ⟨1280, 720, 8⟩, ⟨1920, 1080, 0⟩]
        (-1)
      = ([(⟨640, 480, 0⟩ : Mode), ⟨800, 600, 8⟩, ⟨1024, 768, 0⟩, ⟨1280, 720, 8⟩,
          ⟨1920, 1080, 0⟩].filter mode_is_preferred).getLast?
    ∧ ([(⟨640, 480, 0⟩ : Mode), ⟨800, 600, 8⟩, ⟨1024, 768, 0⟩, ⟨1280, 720, 8⟩,
          ⟨1920, 1080, 0⟩].filter mode_is_preferred).getLast? = some ⟨1280, 720, 8⟩ :=
  ⟨(select_resolution_policy
      [⟨640, 480, 0⟩, ⟨800, 600, 8⟩, ⟨1024, 768, 0⟩, ⟨1280, 720, 8⟩, ⟨1920, 1080, 0⟩]
      (-1)).2.1 (by decide) (by decide),
   by decide⟩

/-- Claim C9: in every execution of `get_framebuffer`, whatever the
environment, the acquisition code itself (everything apart from the
internal `release_framebuffer` call) issues no `drmModeSetCrtc`: the
controller-state capture is read-only. -/
theorem get_framebuffer_no_setcrtc (env : Env) (dri_device connector_name : String)
    (fb : Framebuffer) (selected_resolution : Int) :
    ((get_framebuffer env dri_device connector_name fb selected_resolution).acqTrace.all
      (fun e => !e.isSetCrtc)) = true := by
  have hfind : ∀ ids,
      ((find_connector env ids connector_name).snd).all (fun e => !e.isSetCrtc) = true :=
    fun ids => find_connector_all _ (fun i => rfl) (fun i => rfl) env ids connector_name
  have hfind' := hfind
  simp only [Event.isSetCrtc] at hfind'
  unfold get_framebuffer
  by_cases h0 : env.openAt dri_device < 0
  · simp [h0, Event.isSetCrtc]
  · simp only [if_neg h0]
    repeat' split
    all_goals
      simp [List.all_cons, List.all_append, List.all_nil, Event.isSetCrtc, hfind, hfind',
        Bool.not_false, Bool.true_and, Bool.and_true, Bool.and_self]

/-- Claim C5: when the acquisition run matches a connector that reports
zero modes, `get_framebuffer` fails with `-EINVAL`, leaves the caller's
handle untouched, performs no cleanup release, and its trace contains no
dumb-buffer creation and no framebuffer registration call. -/
theorem get_framebuffer_zero_modes (env : Env) (dri_device connector_name : String)
    (fb : Framebuffer) (selected_resolution : Int)
    (rs : Resources) (c : Connector)
    (hfd : 0 ≤ env.openAt dri_device)
    (hres : env.resources = some rs)
    (hc : (find_connector env rs.connectors connector_name).fst = some c)
    (hm : c.modes = []) :
    (get_framebuffer env dri_device connector_name fb selected_resolution).err = -EINVAL
    ∧ (get_framebuffer env dri_device connector_name fb selected_resolution).fb = fb
    ∧ (get_framebuffer env dri_device connector_name fb selected_resolution).relTrace = []
    ∧ ((get_framebuffer env dri_device connector_name fb selected_resolution).acqTrace.all
        (fun e => !e.isCreateDumb && !e.isAddFB2)) = true := by
  have h0 : ¬ env.openAt dri_device < 0 := Int.not_lt.mpr hfd
  have hfind : ((find_connector env rs.connectors connector_name).snd).all
      (fun e => !e.isCreateDumb && !e.isAddFB2) = true :=
    find_connector_all _ (fun i => rfl) (fun i => rfl) env rs.connectors connector_name
  have hfind' := hfind
  simp only [Event.isCreateDumb, Event.isAddFB2] at hfind'
  unfold get_framebuffer
  simp only [if_neg h0, hres, hc]
  simp [hm, List.all_cons, List.all_append, hfind, hfind',
    Event.isCreateDumb, Event.isAddFB2]

/-- Witness for C5: the concrete environment whose matched HDMI-A-1
connector reports zero modes. -/
theorem get_framebuffer_zero_modes_witness :
    (get_framebuffer envZeroModes "/dev/dri/card0" "HDMI-A-1" {} 0).err = -EINVAL
    ∧ (get_framebuffer envZeroModes "/dev/dri/card0" "HDMI-A-1" {} 0).fb = {}
    ∧ (get_framebuffer envZeroModes "/dev/dri/card0" "HDMI-A-1" {} 0).relTrace = []
    ∧ ((get_framebuffer envZeroModes "/dev/dri/card0" "HDMI-A-1" {} 0).acqTrace.all
        (fun e => !e.isCreateDumb && !e.isAddFB2)) = true :=
  get_framebuffer_zero_modes envZeroModes "/dev/dri/card0" "HDMI-A-1" {} 0
    ⟨[7], [44]⟩ { connHDMI with modes := [] }
    (by decide) rfl (by decide) rfl

/-- Claim C7 counterexample: in a run whose uninitialized plane-array stack
slots hold 9, the registration call passes 9 — not 0 — in the remaining
plane slots of all three arrays: the source populates only the first plane
and never zeroes the rest. -/
theorem get_framebuffer_addFB2_junk_cex :
    Event.addFB2 1920 1080 DRM_FORMAT_ABGR8888 [5, 9, 9, 9] [7680, 9, 9, 9] [0, 9, 9, 9]
        ∈ (get_framebuffer envAcqOk "/dev/dri/card0" "HDMI-A-1" {} (-1)).acqTrace
    ∧ ((get_framebuffer envAcqOk "/dev/dri/card0" "HDMI-A-1" {} (-1)).acqTrace.all
        (fun e => match e with
          | Event.addFB2 _ _ _ hs ps os =>
              hs.tail == [0, 0, 0] && ps.tail == [0, 0, 0] && os.tail == [0, 0, 0]
          | _ => true)) = false := by
  decide

/-- Claim C7 as amended: whenever the run reaches registration, it invokes
the multi-plane add-framebuffer primitive with the selected mode's
`hdisplay`x`vdisplay`, the fixed `DRM_FORMAT_ABGR8888` format, and
handle/pitch/offset arrays whose first entries come from the dumb buffer's
handle and pitch and a zero offset — while the remaining three slots of
each array carry the arrays' initial (uninitialized) stack contents, which
the source never writes. -/
theorem get_framebuffer_addFB2_args (env : Env) (dri_device connector_name : String)
    (fb : Framebuffer) (selected_resolution : Int)
    (rs : Resources) (c : Connector) (r : Mode)
    (hfd : 0 ≤ env.openAt dri_device)
    (hres : env.resources = some rs)
    (hc : (find_connector env rs.connectors connector_name).fst = some c)
    (hm : ¬ c.modes.length = 0)
    (hr : select_resolution c.modes selected_resolution = some r)
    (hcd : (env.createDumb r.hdisplay r.vdisplay 32).fst = 0) :
    Event.addFB2 r.hdisplay r.vdisplay DRM_FORMAT_ABGR8888
        [(env.createDumb r.hdisplay r.vdisplay 32).snd.handle,
         env.handlesInit.w1, env.handlesInit.w2, env.handlesInit.w3]
        [(env.createDumb r.hdisplay r.vdisplay 32).snd.pitch,
         env.pitchesInit.w1, env.pitchesInit.w2, env.pitchesInit.w3]
        [0, env.offsetsInit.w1, env.offsetsInit.w2, env.offsetsInit.w3]
      ∈ (get_framebuffer env dri_device connector_name fb selected_resolution).acqTrace := by
  have h0 : ¬ env.openAt dri_device < 0 := Int.not_lt.mpr hfd
  have hcd' : ¬ ((env.createDumb r.hdisplay r.vdisplay 32).fst ≠ 0) := by simp [hcd]
  unfold get_framebuffer
  simp only [if_neg h0, hres, hc, hr, Option.getD_some, if_neg hm, if_neg hcd']
  repeat' split
  all_goals simp [List.mem_append]

/-- Witness for the amended C7 in the all-success environment, where the
uninitialized stack words are 9. -/
theorem get_framebuffer_addFB2_args_witness :
    Event.addFB2 1920 1080 DRM_FORMAT_ABGR8888 [5, 9, 9, 9] [7680, 9, 9, 9] [0, 9, 9, 9]
      ∈ (get_framebuffer envAcqOk "/dev/dri/card0" "HDMI-A-1" {} (-1)).acqTrace :=
  get_framebuffer_addFB2_args envAcqOk "/dev/dri/card0" "HDMI-A-1" {} (-1)
    ⟨[7], [44]⟩ connHDMI ⟨1920, 1080, 8⟩
    (by decide) rfl (by decide) (by decide) (by decide) rfl

/-- Claim C8: on every successful mapping, the `mmap` call requests exactly
the dumb buffer's reported `size` bytes, and the handle records that same
size (its `dumb_framebuffer.size` field, the mapped region's extent) with
the mapped pointer stored in `data`. -/
theorem get_framebuffer_map_size (env : Env) (dri_device connector_name : String)
    (fb : Framebuffer) (selected_resolution : Int)
    (rs : Resources) (c : Connector) (r : Mode) (encoder : Encoder) (cs : CrtcState) (p : Nat)
    (hfd : 0 ≤ env.openAt dri_device)
    (hres : env.resources = some rs)
    (hc : (find_connector env rs.connectors connector_name).fst = some c)
    (hm : ¬ c.modes.length = 0)
    (hr : select_resolution c.modes selected_resolution = some r)
    (hcd : (env.createDumb r.hdisplay r.vdisplay 32).fst = 0)
    (haf : (env.addFB2 r.hdisplay r.vdisplay DRM_FORMAT_ABGR8888
        [(env.createDumb r.hdisplay r.vdisplay 32).snd.handle,
         env.handlesInit.w1, env.handlesInit.w2, env.handlesInit.w3]
        [(env.createDumb r.hdisplay r.vdisplay 32).snd.pitch,
         env.pitchesInit.w1, env.pitchesInit.w2, env.pitchesInit.w3]
        [0, env.offsetsInit.w1, env.offsetsInit.w2, env.offsetsInit.w3]).fst = 0)
    (henc : env.encoderAt (pick_encoder_id c) = some encoder)
    (hcrtc : env.crtcAt (pick_crtc_id encoder rs) = some cs)
    (hmd : (env.mapDumb (env.createDumb r.hdisplay r.vdisplay 32).snd.handle).fst = 0)
    (hmp : env.mmapPtr (env.createDumb r.hdisplay r.vdisplay 32).snd.size
        (env.mapDumb (env.createDumb r.hdisplay r.vdisplay 32).snd.handle).snd = some p) :
    (get_framebuffer env dri_device connector_name fb selected_resolution).err = 0
    ∧ Event.mmapCall (env.createDumb r.hdisplay r.vdisplay 32).snd.size
        (env.mapDumb (env.createDumb r.hdisplay r.vdisplay 32).snd.handle).snd
        ∈ (get_framebuffer env dri_device connector_name fb selected_resolution).acqTrace
    ∧ (get_framebuffer env dri_device connector_name fb
        selected_resolution).fb.dumb_framebuffer.size
        = (env.createDumb r.hdisplay r.vdisplay 32).snd.size
    ∧ (get_framebuffer env dri_device connector_name fb selected_resolution).fb.data = some p := by
  have h0 : ¬ env.openAt dri_device < 0 := Int.not_lt.mpr hfd
  have hcd' : ¬ ((env.createDumb r.hdisplay r.vdisplay 32).fst ≠ 0) := by simp [hcd]
  have haf' : ¬ ((env.addFB2 r.hdisplay r.vdisplay DRM_FORMAT_ABGR8888
      [(env.createDumb r.hdisplay r.vdisplay 32).snd.handle,
       env.handlesInit.w1, env.handlesInit.w2, env.handlesInit.w3]
      [(env.createDumb r.hdisplay r.vdisplay 32).snd.pitch,
       env.pitchesInit.w1, env.pitchesInit.w2, env.pitchesInit.w3]
      [0, env.offsetsInit.w1, env.offsetsInit.w2, env.offsetsInit.w3]).fst ≠ 0) := by
    simp [haf]
  have hmd' : ¬ ((env.mapDumb (env.createDumb r.hdisplay r.vdisplay 32).snd.handle).fst ≠ 0) := by
    simp [hmd]
  unfold get_framebuffer
  simp only [if_neg h0, hres, hc, hr, Option.getD_some, if_neg hm, if_neg hcd', if_neg haf',
    henc, hcrtc, if_neg hmd', hmp]
  simp [List.mem_append]

/-- Witness for C8 in the all-success environment: the mapping requests the
dumb buffer's 8294400 bytes and the handle records that extent. -/
theorem get_framebuffer_map_size_witness :
    (get_framebuffer envAcqOk "/dev/dri/card0" "HDMI-A-1" {} (-1)).err = 0
    ∧ Event.mmapCall 8294400 4096
        ∈ (get_framebuffer envAcqOk "/dev/dri/card0" "HDMI-A-1" {} (-1)).acqTrace
    ∧ (get_framebuffer envAcqOk "/dev/dri/card0" "HDMI-A-1" {} (-1)).fb.dumb_framebuffer.size
        = 8294400
    ∧ (get_framebuffer envAcqOk "/dev/dri/card0" "HDMI-A-1" {} (-1)).fb.data = some 1000 :=
  get_framebuffer_map_size envAcqOk "/dev/dri/card0" "HDMI-A-1" {} (-1)
    ⟨[7], [44]⟩ connHDMI ⟨1920, 1080, 8⟩ ⟨21⟩ ⟨21, 88, ⟨640, 480, 0⟩⟩ 1000
    (by decide) rfl (by decide) (by decide) (by decide) rfl rfl (by decide) (by decide) rfl rfl

/-- Claim C10 counterexample: when the caller passes a handle whose `fd`
and `connector` fields are nonzero, a failing acquisition (dumb-buffer
creation fails) does not leave the `resolution` field with the caller's
value: the internal cleanup release nulls it. -/
theorem get_framebuffer_resolution_clobber_cex :
    (get_framebuffer envCreateDumbFail "/dev/dri/card0" "HDMI-A-1" fbPre (-1)).err = -12
    ∧ fbPre.resolution = some ⟨640, 480, 0⟩
    ∧ (get_framebuffer envCreateDumbFail "/dev/dri/card0" "HDMI-A-1" fbPre (-1)).fb.resolution
        = none := by
  decide

/-- Claim C10 as amended: on every failure return the handle's `fd` and
`connector` fields are never assigned and retain the caller's values, and
`resolution` either retains the caller's value or is nulled by the internal
cleanup; assuming a POSIX `errno` (nonzero after a failed `mmap`), a zero
return means the full-success path ran: `fd` holds the opened descriptor,
`connector` and `resolution` hold acquired values, and the privilege drop
was performed beforehand. -/
theorem get_framebuffer_handle_fields (env : Env) (dri_device connector_name : String)
    (fb : Framebuffer) (selected_resolution : Int) :
    ((get_framebuffer env dri_device connector_name fb selected_resolution).err ≠ 0 →
        (get_framebuffer env dri_device connector_name fb selected_resolution).fb.fd = fb.fd
        ∧ (get_framebuffer env dri_device connector_name fb selected_resolution).fb.connector
            = fb.connector
        ∧ ((get_framebuffer env dri_device connector_name fb selected_resolution).fb.resolution
              = fb.resolution
           ∨ (get_framebuffer env dri_device connector_name fb
                selected_resolution).fb.resolution = none))
    ∧ (env.mmapErrno ≠ 0 →
        (get_framebuffer env dri_device connector_name fb selected_resolution).err = 0 →
        (get_framebuffer env dri_device connector_name fb selected_resolution).fb.fd
            = env.openAt dri_device
        ∧ (get_framebuffer env dri_device connector_name fb
            selected_resolution).fb.connector.isSome = true
        ∧ (get_framebuffer env dri_device connector_name fb
            selected_resolution).fb.resolution.isSome = true
        ∧ Event.dropMaster
            ∈ (get_framebuffer env dri_device connector_name fb selected_resolution).acqTrace) := by
  unfold get_framebuffer
  by_cases h0 : env.openAt dri_device < 0
  · simp [h0, EINVAL]
  · simp only [if_neg h0]
    repeat' split
    all_goals refine ⟨fun herr => ?_, fun hmm0 hz => ?_⟩
    all_goals try exact ⟨release_framebuffer_fd _, release_framebuffer_connector _,
      release_framebuffer_resolution_or _⟩
    all_goals try exact ⟨rfl, rfl, Or.inl rfl⟩
    all_goals simp_all [EINVAL, List.mem_append]

/-- Witness for the amended C10: the failing run on a caller handle with
nonzero fields, and the fully successful run on a zeroed handle. -/
theorem get_framebuffer_handle_fields_witness :
    ((get_framebuffer envCreateDumbFail "/dev/dri/card0" "HDMI-A-1" fbPre (-1)).fb.fd = fbPre.fd
     ∧ (get_framebuffer envCreateDumbFail "/dev/dri/card0" "HDMI-A-1" fbPre (-1)).fb.connector
         = fbPre.connector
     ∧ ((get_framebuffer envCreateDumbFail "/dev/dri/card0" "HDMI-A-1" fbPre (-1)).fb.resolution
           = fbPre.resolution
        ∨ (get_framebuffer envCreateDumbFail "/dev/dri/card0" "HDMI-A-1" fbPre
             (-1)).fb.resolution = none))
    ∧ ((get_framebuffer envAcqOk "/dev/dri/card0" "HDMI-A-1" {} (-1)).fb.fd
         = envAcqOk.openAt "/dev/dri/card0"
       ∧ (get_framebuffer envAcqOk "/dev/dri/card0" "HDMI-A-1" {} (-1)).fb.connector.isSome = true
       ∧ (get_framebuffer envAcqOk "/dev/dri/card0" "HDMI-A-1" {} (-1)).fb.resolution.isSome
           = true
       ∧ Event.dropMaster
           ∈ (get_framebuffer envAcqOk "/dev/dri/card0" "HDMI-A-1" {} (-1)).acqTrace) :=
  ⟨(get_framebuffer_handle_fields envCreateDumbFail "/dev/dri/card0" "HDMI-A-1" fbPre (-1)).1
     (by decide),
   (get_framebuffer_handle_fields envAcqOk "/dev/dri/card0" "HDMI-A-1" {} (-1)).2
     (by decide) (by decide)⟩

/-- Witness for C6 at the HDMI-A identifier (11) and an out-of-range one. -/
theorem connector_type_name_table_witness :
    ((connector_type_names.get ⟨11, by decide⟩).type = 11
     ∧ connector_type_name 11 = (connector_type_names.get ⟨11, by decide⟩).name)
    ∧ connector_type_name 40 = "INVALID" :=
  ⟨(connector_type_name_table 11).1 (by decide),
   (connector_type_name_table 40).2 (by decide)⟩

end DrmFramebuffer
